import Mathlib

/-!
Shallow embedding of `.github/workflows/trigger-release/trigger-release.py`
from the rust-osdev/bootloader repository.

The script is a linear CI helper: it reads the workspace crate version from
`Cargo.toml`, queries crates.io for that version, and — when the version is
absent — resolves the current commit hash with `git rev-parse HEAD` and
issues two `gh api` subprocess calls, one creating a tag reference and one
creating a release.

The embedding makes the script's interaction with the outside world explicit:
a `World` records what the environment would answer (config contents, the
registry's JSON response, exit codes and stdout of the subprocesses), and
`triggerRelease` returns the run's observable behaviour: the ordered list of
I/O `Event`s the script performs, the log lines it prints, and its `Outcome`.
Argument vectors of the subprocess calls are embedded verbatim, string for
string, from the source.
-/

namespace TriggerRelease

/-- The fields of the crates.io `version` JSON object that the script reads:
`version["crate"]` and `version["num"]`. -/
structure VersionInfo where
  crate : String
  num : String
deriving DecidableEq, Repr

/-- Result of a subprocess invocation as the environment provides it:
its exit code and its captured standard output. -/
structure SubprocResult where
  exitCode : Nat
  stdout : String
deriving DecidableEq, Repr

/-- The environment of one run of the script.

* `cargoVersion` — `toml.load("Cargo.toml")["workspace"]["package"]["version"]`;
  `none` models a missing/unreadable file or an absent nested key.
* `registryVersion` — the `"version"` field of the JSON body answered by
  `GET https://crates.io/api/v1/crates/bootloader/<version>`; `none` models a
  body without a `"version"` key.
* `gitRevParse` — what `git rev-parse HEAD` would return.
* `ghTagExit` / `ghReleaseExit` — exit codes of the two `gh api` calls. -/
structure World where
  cargoVersion : Option String
  registryVersion : Option VersionInfo
  gitRevParse : SubprocResult
  ghTagExit : Nat
  ghReleaseExit : Nat
deriving DecidableEq, Repr

/-- An observable I/O action of one run: an HTTP GET (`requests.get`) or a
`subprocess.run` with its full argument vector and the exit code the
environment gave it. -/
inductive Event where
  | httpGet (url : String)
  | subprocess (args : List String) (exitCode : Nat)
deriving DecidableEq, Repr

/-- How the process terminates: a normal `exit code`, or an uncaught Python
exception (`KeyError`/`toml` error, `AssertionError`,
`subprocess.CalledProcessError`). -/
inductive Outcome where
  | exit (code : Nat)
  | configError
  | assertionError
  | calledProcessError
deriving DecidableEq, Repr

/-- The process exit code an `Outcome` surfaces as: an uncaught Python
exception terminates the interpreter with exit code 1. -/
def Outcome.processExit : Outcome → Nat
  | .exit c => c
  | _ => 1

/-- Observable behaviour of one run: the I/O events in order, the printed
log lines in order, and the termination outcome. -/
structure RunResult where
  events : List Event
  logs : List String
  outcome : Outcome
deriving DecidableEq, Repr

/-- `api_url = "https://crates.io/api/v1/crates/bootloader/" + crate_version`. -/
def apiUrl (crate_version : String) : String :=
  "https://crates.io/api/v1/crates/bootloader/" ++ crate_version

/-- Argument vector of the commit-hash resolution:
`subprocess.run(["git", "rev-parse", "HEAD"], check=True, stdout=PIPE)`. -/
def gitRevParseArgs : List String :=
  ["git", "rev-parse", "HEAD"]

/-- Argument vector of the tag-creation call, verbatim from the source:
`gh api /repos/rust-osdev/x86_64/git/refs -X POST -H ... -F ref=... -F sha=...`. -/
def tagCallArgs (tag_name sha : String) : List String :=
  ["gh", "api", "/repos/rust-osdev/x86_64/git/refs",
   "-X", "POST", "-H", "Accept: application/vnd.github.v3+json",
   "-F", "ref=refs/tags/" ++ tag_name,
   "-F", "sha=" ++ sha]

/-- Argument vector of the release-creation call, verbatim from the source.
The f-strings `f"tag_name='{tag_name}'"` etc. place literal single quotes
around the interpolated values. -/
def releaseCallArgs (tag_name sha : String) : List String :=
  ["gh", "api", "--method", "POST", "-H", "Accept: application/vnd.github+json",
   "/repos/rust-osdev/bootloader/releases",
   "-f", "tag_name='" ++ tag_name ++ "'",
   "-f", "target_commitish='" ++ sha ++ "'",
   "-f", "name='" ++ tag_name ++ "'",
   "-f", "body='[Changelog](https://github.com/rust-osdev/bootloader/blob/main/Changelog.md)'",
   "-F", "draft=false", "-F", "prerelease=false", "-F", "generate_release_notes=false"]

/-- Characters stripped from both ends, mirroring Python's `str.strip()`. -/
def stripChars (l : List Char) : List Char :=
  ((l.dropWhile Char.isWhitespace).reverse.dropWhile Char.isWhitespace).reverse

/-- Python's `s.strip()` on the decoded stdout of `git rev-parse HEAD`. -/
def pyStrip (s : String) : String :=
  String.mk (stripChars s.data)

/-- The whole script, line for line.

```
cargo_toml = toml.load("Cargo.toml")
crate_version = cargo_toml["workspace"]["package"]["version"]
print("Detected crate version " + crate_version)
api_url = "https://crates.io/api/v1/crates/bootloader/" + crate_version
released_version = requests.get(api_url).json()
if "version" in released_version:
    version = released_version["version"]
    assert (version["crate"] == "bootloader")
    assert (version["num"] == crate_version)
    print("Version " + crate_version + " already exists on crates.io")
else:
    print("Could not find version " + crate_version + " on crates.io; creating a new release")
    tag_name = "v" + crate_version
    print("  Tagging commit as " + tag_name)
    sha = subprocess.run(["git", "rev-parse", "HEAD"], check=True, stdout=PIPE).stdout.decode("utf-8").strip()
    subprocess.run([...gh api tag ref...])      # no check=True
    subprocess.run([...gh api release...])      # no check=True
    print("  Done")
```

An absent `cargoVersion` aborts before the GET; the two asserts abort after
the GET; `check=True` makes a failing `git rev-parse` abort before the two
`gh` calls, whose own exit codes are not checked by the script. -/
def triggerRelease (w : World) : RunResult :=
  match w.cargoVersion with
  | none => { events := [], logs := [], outcome := .configError }
  | some crate_version =>
    let logDetect := "Detected crate version " ++ crate_version
    let url := apiUrl crate_version
    match w.registryVersion with
    | some version =>
      if version.crate = "bootloader" then
        if version.num = crate_version then
          { events := [.httpGet url],
            logs := [logDetect,
                     "Version " ++ crate_version ++ " already exists on crates.io"],
            outcome := .exit 0 }
        else
          { events := [.httpGet url], logs := [logDetect], outcome := .assertionError }
      else
        { events := [.httpGet url], logs := [logDetect], outcome := .assertionError }
    | none =>
      let logMiss := "Could not find version " ++ crate_version ++
        " on crates.io; creating a new release"
      let tag_name := "v" ++ crate_version
      let logTag := "  Tagging commit as " ++ tag_name
      if w.gitRevParse.exitCode = 0 then
        let sha := pyStrip w.gitRevParse.stdout
        { events := [.httpGet url,
                     .subprocess gitRevParseArgs w.gitRevParse.exitCode,
                     .subprocess (tagCallArgs tag_name sha) w.ghTagExit,
                     .subprocess (releaseCallArgs tag_name sha) w.ghReleaseExit],
          logs := [logDetect, logMiss, logTag, "  Done"],
          outcome := .exit 0 }
      else
        { events := [.httpGet url,
                     .subprocess gitRevParseArgs w.gitRevParse.exitCode],
          logs := [logDetect, logMiss, logTag],
          outcome := .calledProcessError }

/-! ## Observation functions over a run's events -/

/-- The argument vector of an event (empty for the HTTP GET). -/
def Event.args : Event → List String
  | .httpGet _ => []
  | .subprocess a _ => a

/-- The exit code recorded for a subprocess event. -/
def Event.exitOf : Event → Option Nat
  | .httpGet _ => none
  | .subprocess _ c => some c

/-- Whether the event is the HTTP GET to the registry. -/
def Event.isHttpGet : Event → Bool
  | .httpGet _ => true
  | .subprocess _ _ => false

/-- Whether the event is the commit-hash resolution `git rev-parse HEAD`. -/
def Event.isCommitResolution : Event → Bool
  | .httpGet _ => false
  | .subprocess a _ => a == gitRevParseArgs

/-- Whether the first character of a string is a slash. -/
def firstCharIsSlash (s : String) : Bool :=
  match s.data with
  | [] => false
  | c :: _ => c == '/'

/-- The REST endpoint of a `gh api` invocation: the first argument after
`gh api` that starts with a slash. `none` for non-`gh api` argument vectors. -/
def ghApiEndpoint : List String → Option String
  | "gh" :: "api" :: rest => rest.find? firstCharIsSlash
  | _ => none

/-- Whether the character list `pat` is an initial segment of `l`. -/
def leadsWith : List Char → List Char → Bool
  | [], _ => true
  | _ :: _, [] => false
  | a :: as, b :: bs => a == b && leadsWith as bs

/-- Whether `pat` is a final segment of `s`. -/
def tailMatches (pat s : String) : Bool :=
  leadsWith pat.data.reverse s.data.reverse

/-- Whether the event is a tag-creation call: a `gh api` invocation whose
endpoint is a `.../git/refs` reference-creation route. -/
def Event.isTagCreation (e : Event) : Bool :=
  match ghApiEndpoint e.args with
  | some ep => tailMatches "/git/refs" ep
  | none => false

/-- Whether the event is a release-creation call: a `gh api` invocation whose
endpoint is a `.../releases` route. -/
def Event.isReleaseCreation (e : Event) : Bool :=
  match ghApiEndpoint e.args with
  | some ep => tailMatches "/releases" ep
  | none => false

/-- Number of commit-hash resolutions a run performs. -/
def resolutionCount (r : RunResult) : Nat :=
  r.events.countP fun e => Event.isCommitResolution e

/-- Number of tag-creation calls a run performs. -/
def tagCreationCount (r : RunResult) : Nat :=
  r.events.countP fun e => Event.isTagCreation e

/-- Number of release-creation calls a run performs. -/
def releaseCreationCount (r : RunResult) : Nat :=
  r.events.countP fun e => Event.isReleaseCreation e

/-- Number of HTTP GET requests a run performs. -/
def httpGetCount (r : RunResult) : Nat :=
  r.events.countP fun e => Event.isHttpGet e

/-- Split a character list at its first `=`: the part before and after it. -/
def splitAtEq : List Char → Option (List Char × List Char)
  | [] => none
  | c :: rest =>
    if c == '=' then some ([], rest)
    else
      match splitAtEq rest with
      | some (k, v) => some (c :: k, v)
      | none => none

/-- The value transmitted for field `key` in a `key=value` argument vector:
the text after the first `=` of the first argument whose part before its
first `=` is exactly `key`. -/
def fieldValue (args : List String) (key : String) : Option String :=
  (args.filterMap fun a =>
    match splitAtEq a.data with
    | some (k, v) => if String.mk k = key then some (String.mk v) else none
    | none => none).head?

/-- Split a character list into its `/`-separated components. -/
def splitSlash : List Char → List (List Char)
  | [] => [[]]
  | c :: rest =>
    if c == '/' then [] :: splitSlash rest
    else
      match splitSlash rest with
      | h :: t => (c :: h) :: t
      | [] => [[c]]

/-- The `owner/repository` part of a GitHub REST route of the shape
`/repos/<owner>/<repository>/...`. -/
def repoOf (endpoint : String) : String :=
  match splitSlash endpoint.data with
  | _ :: _ :: org :: repo :: _ => String.mk org ++ "/" ++ String.mk repo
  | _ => ""

/-- All tag-creation calls of a run carry field `ref` = `refs/tags/<tag>` and
field `sha` = `<sha>`, and all release-creation calls carry field `tag_name`
= `<tag>` and field `target_commitish` = `<sha>`: the reading of the three
calls "referencing the same commit hash and tag name" at the level of the
transmitted field values. -/
def callsReferTo (r : RunResult) (tag sha : String) : Prop :=
  (∀ e ∈ r.events, Event.isTagCreation e = true →
      fieldValue (Event.args e) "ref" = some ("refs/tags/" ++ tag) ∧
      fieldValue (Event.args e) "sha" = some sha) ∧
  (∀ e ∈ r.events, Event.isReleaseCreation e = true →
      fieldValue (Event.args e) "tag_name" = some tag ∧
      fieldValue (Event.args e) "target_commitish" = some sha)

/-- The not-yet-released scenario performs one resolution, one tag creation
and one release creation, all referencing tag name `"v" ++ V` and the commit
hash resolved by `git rev-parse HEAD`, at the level of transmitted field
values. -/
def claimOneRelease (w : World) (V : String) : Prop :=
  resolutionCount (triggerRelease w) = 1 ∧
  tagCreationCount (triggerRelease w) = 1 ∧
  releaseCreationCount (triggerRelease w) = 1 ∧
  callsReferTo (triggerRelease w) ("v" ++ V) (pyStrip w.gitRevParse.stdout)

/-- A concrete environment for the not-yet-released scenario: version
`0.12.0` declared, absent from the registry, commit hash `abc123`, all
subprocesses succeeding. -/
def w0 : World :=
  { cargoVersion := some "0.12.0",
    registryVersion := none,
    gitRevParse := { exitCode := 0, stdout := "abc123\n" },
    ghTagExit := 0,
    ghReleaseExit := 0 }

/-! ## Helper lemmas: how the classifiers evaluate on the events the script
emits, and a length argument for string inequalities. -/

@[simp]
theorem isHttpGet_httpGet (u : String) : (Event.httpGet u).isHttpGet = true := rfl

@[simp]
theorem isHttpGet_subprocess (a : List String) (c : Nat) :
    (Event.subprocess a c).isHttpGet = false := rfl

@[simp]
theorem isCommitResolution_httpGet (u : String) :
    (Event.httpGet u).isCommitResolution = false := rfl

@[simp]
theorem isCommitResolution_git (c : Nat) :
    (Event.subprocess gitRevParseArgs c).isCommitResolution = true := rfl

@[simp]
theorem isCommitResolution_tagCall (t s : String) (c : Nat) :
    (Event.subprocess (tagCallArgs t s) c).isCommitResolution = false := rfl

@[simp]
theorem isCommitResolution_releaseCall (t s : String) (c : Nat) :
    (Event.subprocess (releaseCallArgs t s) c).isCommitResolution = false := rfl

@[simp]
theorem isTagCreation_httpGet (u : String) :
    (Event.httpGet u).isTagCreation = false := rfl

@[simp]
theorem isTagCreation_git (c : Nat) :
    (Event.subprocess gitRevParseArgs c).isTagCreation = false := rfl

@[simp]
theorem isTagCreation_tagCall (t s : String) (c : Nat) :
    (Event.subprocess (tagCallArgs t s) c).isTagCreation = true := rfl

@[simp]
theorem isTagCreation_releaseCall (t s : String) (c : Nat) :
    (Event.subprocess (releaseCallArgs t s) c).isTagCreation = false := rfl

@[simp]
theorem isReleaseCreation_httpGet (u : String) :
    (Event.httpGet u).isReleaseCreation = false := rfl

@[simp]
theorem isReleaseCreation_git (c : Nat) :
    (Event.subprocess gitRevParseArgs c).isReleaseCreation = false := rfl

@[simp]
theorem isReleaseCreation_tagCall (t s : String) (c : Nat) :
    (Event.subprocess (tagCallArgs t s) c).isReleaseCreation = false := rfl

@[simp]
theorem isReleaseCreation_releaseCall (t s : String) (c : Nat) :
    (Event.subprocess (releaseCallArgs t s) c).isReleaseCreation = true := rfl

theorem ne_of_length_ne (s t : String) (h : s.length ≠ t.length) : s ≠ t :=
  fun e => h (congrArg String.length e)

/-! ## The claims -/

/-- C1, counterexample: the claim as stated fails on the code. In the
environment `w0` (version `0.12.0` declared and absent from the registry,
commit hash `abc123`), the script does perform exactly one commit-hash
resolution, one tag-creation call and one release-creation call, but the
three calls do not all reference the tag name `v0.12.0` and the hash
`abc123`: the release-creation call transmits `tag_name` as `'v0.12.0'` and
`target_commitish` as `'abc123'`, with literal single quotes, so
`callsReferTo` fails at the unquoted tag name and hash. -/
theorem claimC1_counterexample :
    w0.cargoVersion = some "0.12.0" ∧ w0.registryVersion = none ∧
    w0.gitRevParse.exitCode = 0 ∧ ¬ claimOneRelease w0 "0.12.0" := by
  refine ⟨rfl, rfl, rfl, ?_⟩
  unfold claimOneRelease callsReferTo
  decide

/-- C1, amended: for every valid configuration declaring version `V`, if the
registry response has no `version` field and the commit resolution succeeds,
the script performs exactly one commit-hash resolution, exactly one
tag-creation call and exactly one release-creation call; the tag-creation
call carries `ref=refs/tags/v<V>` and the resolved hash, and the
release-creation call carries the same tag name and the same hash wrapped in
literal single quotes (`tag_name='v<V>'`, `target_commitish='<sha>'`). -/
theorem claimC1_amended (w : World) (V : String)
    (h1 : w.cargoVersion = some V)
    (h2 : w.registryVersion = none)
    (h3 : w.gitRevParse.exitCode = 0) :
    resolutionCount (triggerRelease w) = 1 ∧
    tagCreationCount (triggerRelease w) = 1 ∧
    releaseCreationCount (triggerRelease w) = 1 ∧
    (∀ e ∈ (triggerRelease w).events, Event.isTagCreation e = true →
        ("ref=refs/tags/" ++ ("v" ++ V)) ∈ Event.args e ∧
        ("sha=" ++ pyStrip w.gitRevParse.stdout) ∈ Event.args e) ∧
    (∀ e ∈ (triggerRelease w).events, Event.isReleaseCreation e = true →
        ("tag_name='" ++ ("v" ++ V) ++ "'") ∈ Event.args e ∧
        ("target_commitish='" ++ pyStrip w.gitRevParse.stdout ++ "'") ∈ Event.args e) := by
  simp only [triggerRelease, h1, h2, h3, if_pos]
  refine ⟨rfl, rfl, rfl, ?_, ?_⟩
  · intro e he htag
    simp only [List.mem_cons, List.not_mem_nil, or_false] at he
    rcases he with rfl | rfl | rfl | rfl
    · simp at htag
    · simp at htag
    · exact ⟨by simp [Event.args, tagCallArgs], by simp [Event.args, tagCallArgs]⟩
    · simp at htag
  · intro e he hrel
    simp only [List.mem_cons, List.not_mem_nil, or_false] at he
    rcases he with rfl | rfl | rfl | rfl
    · simp at hrel
    · simp at hrel
    · simp at hrel
    · exact ⟨by simp [Event.args, releaseCallArgs], by simp [Event.args, releaseCallArgs]⟩

/-- C1, witness: the amended statement evaluated in the concrete
environment `w0`. -/
theorem claimC1_witness :
    w0.cargoVersion = some "0.12.0" ∧ w0.registryVersion = none ∧
    w0.gitRevParse.exitCode = 0 ∧
    (resolutionCount (triggerRelease w0) = 1 ∧
     tagCreationCount (triggerRelease w0) = 1 ∧
     releaseCreationCount (triggerRelease w0) = 1 ∧
     (∀ e ∈ (triggerRelease w0).events, Event.isTagCreation e = true →
         ("ref=refs/tags/" ++ ("v" ++ "0.12.0")) ∈ Event.args e ∧
         ("sha=" ++ pyStrip w0.gitRevParse.stdout) ∈ Event.args e) ∧
     (∀ e ∈ (triggerRelease w0).events, Event.isReleaseCreation e = true →
         ("tag_name='" ++ ("v" ++ "0.12.0") ++ "'") ∈ Event.args e ∧
         ("target_commitish='" ++ pyStrip w0.gitRevParse.stdout ++ "'") ∈ Event.args e)) :=
  ⟨rfl, rfl, rfl, claimC1_amended w0 "0.12.0" rfl rfl rfl⟩

/-- C2: the claim that every non-zero subprocess exit surfaces as a non-zero
process exit is contradicted by the code. The two `gh api` invocations are
`subprocess.run` calls without `check=True`: in an environment where both
exit with code 1, the run still terminates with process exit code 0. Only
the `git rev-parse` invocation is checked. -/
theorem claimC2_code_bug :
    (∃ e ∈ (triggerRelease ⟨some "0.12.0", none, ⟨0, "abc123\n"⟩, 1, 1⟩).events,
        Event.isTagCreation e = true ∧ Event.exitOf e = some 1) ∧
    (∃ e ∈ (triggerRelease ⟨some "0.12.0", none, ⟨0, "abc123\n"⟩, 1, 1⟩).events,
        Event.isReleaseCreation e = true ∧ Event.exitOf e = some 1) ∧
    Outcome.processExit (triggerRelease ⟨some "0.12.0", none, ⟨0, "abc123\n"⟩, 1, 1⟩).outcome
      = 0 := by
  decide

/-- C3: for every valid configuration declaring version `V`, if the registry
response contains a matching `version` field (`crate = "bootloader"`,
`num = V`), the script performs zero tag-creation and zero release-creation
calls, logs that the version already exists, and exits with code 0. -/
theorem claimC3_alreadyReleased (w : World) (V : String)
    (h1 : w.cargoVersion = some V)
    (h2 : w.registryVersion = some ⟨"bootloader", V⟩) :
    tagCreationCount (triggerRelease w) = 0 ∧
    releaseCreationCount (triggerRelease w) = 0 ∧
    ("Version " ++ V ++ " already exists on crates.io") ∈ (triggerRelease w).logs ∧
    (triggerRelease w).outcome = .exit 0 ∧
    Outcome.processExit (triggerRelease w).outcome = 0 := by
  simp [triggerRelease, h1, h2, tagCreationCount, releaseCreationCount, Outcome.processExit]

/-- C3, witness: the already-released statement evaluated at version
`0.11.9`. -/
theorem claimC3_witness :
    (World.mk (some "0.11.9") (some ⟨"bootloader", "0.11.9"⟩) ⟨0, ""⟩ 0 0).cargoVersion
      = some "0.11.9" ∧
    (World.mk (some "0.11.9") (some ⟨"bootloader", "0.11.9"⟩) ⟨0, ""⟩ 0 0).registryVersion
      = some ⟨"bootloader", "0.11.9"⟩ ∧
    (tagCreationCount (triggerRelease (World.mk (some "0.11.9")
        (some ⟨"bootloader", "0.11.9"⟩) ⟨0, ""⟩ 0 0)) = 0 ∧
     releaseCreationCount (triggerRelease (World.mk (some "0.11.9")
        (some ⟨"bootloader", "0.11.9"⟩) ⟨0, ""⟩ 0 0)) = 0 ∧
     ("Version " ++ "0.11.9" ++ " already exists on crates.io")
       ∈ (triggerRelease (World.mk (some "0.11.9")
        (some ⟨"bootloader", "0.11.9"⟩) ⟨0, ""⟩ 0 0)).logs ∧
     (triggerRelease (World.mk (some "0.11.9")
        (some ⟨"bootloader", "0.11.9"⟩) ⟨0, ""⟩ 0 0)).outcome = .exit 0 ∧
     Outcome.processExit (triggerRelease (World.mk (some "0.11.9")
        (some ⟨"bootloader", "0.11.9"⟩) ⟨0, ""⟩ 0 0)).outcome = 0) :=
  ⟨rfl, rfl, claimC3_alreadyReleased _ "0.11.9" rfl rfl⟩

/-- C4: if the registry response contains a `version` field whose `crate` is
not `bootloader` or whose `num` is not the parsed version string, the script
aborts with an assertion failure (a non-zero process exit) and performs no
tag-creation or release-creation call. -/
theorem claimC4_mismatchAborts (w : World) (V : String) (vi : VersionInfo)
    (h1 : w.cargoVersion = some V)
    (h2 : w.registryVersion = some vi)
    (h3 : vi.crate ≠ "bootloader" ∨ vi.num ≠ V) :
    (triggerRelease w).outcome = .assertionError ∧
    Outcome.processExit (triggerRelease w).outcome ≠ 0 ∧
    tagCreationCount (triggerRelease w) = 0 ∧
    releaseCreationCount (triggerRelease w) = 0 := by
  rcases h3 with hc | hn
  · simp [triggerRelease, h1, h2, hc, tagCreationCount, releaseCreationCount,
      Outcome.processExit]
  · by_cases hc : vi.crate = "bootloader" <;>
      simp [triggerRelease, h1, h2, hc, hn, tagCreationCount, releaseCreationCount,
        Outcome.processExit]

/-- C4, witness: the mismatch statement evaluated at a registry payload whose
`num` field (`0.11.9`) differs from the declared version (`0.12.0`). -/
theorem claimC4_witness :
    (World.mk (some "0.12.0") (some ⟨"bootloader", "0.11.9"⟩) ⟨0, ""⟩ 0 0).cargoVersion
      = some "0.12.0" ∧
    (World.mk (some "0.12.0") (some ⟨"bootloader", "0.11.9"⟩) ⟨0, ""⟩ 0 0).registryVersion
      = some ⟨"bootloader", "0.11.9"⟩ ∧
    (VersionInfo.mk "bootloader" "0.11.9").num ≠ "0.12.0" ∧
    ((triggerRelease (World.mk (some "0.12.0")
       (some ⟨"bootloader", "0.11.9"⟩) ⟨0, ""⟩ 0 0)).outcome = .assertionError ∧
     Outcome.processExit (triggerRelease (World.mk (some "0.12.0")
       (some ⟨"bootloader", "0.11.9"⟩) ⟨0, ""⟩ 0 0)).outcome ≠ 0 ∧
     tagCreationCount (triggerRelease (World.mk (some "0.12.0")
       (some ⟨"bootloader", "0.11.9"⟩) ⟨0, ""⟩ 0 0)) = 0 ∧
     releaseCreationCount (triggerRelease (World.mk (some "0.12.0")
       (some ⟨"bootloader", "0.11.9"⟩) ⟨0, ""⟩ 0 0)) = 0) :=
  ⟨rfl, rfl, by decide,
   claimC4_mismatchAborts _ "0.12.0" ⟨"bootloader", "0.11.9"⟩ rfl rfl (Or.inr (by decide))⟩

/-- C5: if the configuration file lacks the nested version field (or is
unreadable), the script aborts with a non-zero process exit before
performing any event at all — in particular no HTTP GET to the registry. -/
theorem claimC5_configAbort (w : World) (h : w.cargoVersion = none) :
    (triggerRelease w).events = [] ∧
    httpGetCount (triggerRelease w) = 0 ∧
    (triggerRelease w).outcome = .configError ∧
    Outcome.processExit (triggerRelease w).outcome ≠ 0 := by
  simp [triggerRelease, h, httpGetCount, Outcome.processExit]

/-- C5, witness: the missing-configuration statement evaluated in the
environment with no readable version field. -/
theorem claimC5_witness :
    (World.mk none none ⟨0, ""⟩ 0 0).cargoVersion = none ∧
    ((triggerRelease (World.mk none none ⟨0, ""⟩ 0 0)).events = [] ∧
     httpGetCount (triggerRelease (World.mk none none ⟨0, ""⟩ 0 0)) = 0 ∧
     (triggerRelease (World.mk none none ⟨0, ""⟩ 0 0)).outcome = .configError ∧
     Outcome.processExit (triggerRelease (World.mk none none ⟨0, ""⟩ 0 0)).outcome ≠ 0) :=
  ⟨rfl, claimC5_configAbort _ rfl⟩

/-- C6: in every run, a tag and a release are created together or not at
all: either the run performs zero tag-creation and zero release-creation
calls, or it performs exactly one of each. -/
theorem claimC6_together (w : World) :
    (tagCreationCount (triggerRelease w) = 0 ∧ releaseCreationCount (triggerRelease w) = 0) ∨
    (tagCreationCount (triggerRelease w) = 1 ∧ releaseCreationCount (triggerRelease w) = 1) := by
  obtain ⟨cv, rv, ⟨ge, gs⟩, gt, gr⟩ := w
  cases cv with
  | none => left; exact ⟨rfl, rfl⟩
  | some V =>
    cases rv with
    | some vi =>
      obtain ⟨c, n⟩ := vi
      by_cases hc : c = "bootloader" <;> by_cases hn : n = V <;>
        · left
          simp [triggerRelease, hc, hn, tagCreationCount, releaseCreationCount]
    | none =>
      by_cases hg : ge = 0
      · subst hg; right; exact ⟨rfl, rfl⟩
      · left
        simp only [triggerRelease]
        rw [if_neg hg]
        exact ⟨rfl, rfl⟩

/-- C7: for every parsed version string `V`, the tag name the script uses is
exactly `"v" ++ V`, with no whitespace or other transformation: the single
tag-creation call of the not-yet-released run carries the field
`ref=refs/tags/` followed by exactly `"v" ++ V`, and the log line announces
exactly `"v" ++ V`. -/
theorem claimC7_tagNameExact (w : World) (V : String)
    (h1 : w.cargoVersion = some V)
    (h2 : w.registryVersion = none)
    (h3 : w.gitRevParse.exitCode = 0) :
    (triggerRelease w).events.filter (fun e => Event.isTagCreation e) =
      [Event.subprocess (tagCallArgs ("v" ++ V) (pyStrip w.gitRevParse.stdout)) w.ghTagExit] ∧
    ("ref=refs/tags/" ++ ("v" ++ V)) ∈ tagCallArgs ("v" ++ V) (pyStrip w.gitRevParse.stdout) ∧
    ("  Tagging commit as " ++ ("v" ++ V)) ∈ (triggerRelease w).logs := by
  simp only [triggerRelease, h1, h2, h3, if_pos]
  refine ⟨rfl, by simp [tagCallArgs], by simp⟩

/-- C7, witness: the exact-tag-name statement evaluated at version
`0.12.0`. -/
theorem claimC7_witness :
    (World.mk (some "0.12.0") none ⟨0, "abc123\n"⟩ 0 0).cargoVersion = some "0.12.0" ∧
    (World.mk (some "0.12.0") none ⟨0, "abc123\n"⟩ 0 0).registryVersion = none ∧
    (World.mk (some "0.12.0") none ⟨0, "abc123\n"⟩ 0 0).gitRevParse.exitCode = 0 ∧
    ((triggerRelease (World.mk (some "0.12.0") none ⟨0, "abc123\n"⟩ 0 0)).events.filter
        (fun e => Event.isTagCreation e) =
      [Event.subprocess (tagCallArgs ("v" ++ "0.12.0")
        (pyStrip (World.mk (some "0.12.0") none ⟨0, "abc123\n"⟩ 0 0).gitRevParse.stdout))
        (World.mk (some "0.12.0") none ⟨0, "abc123\n"⟩ 0 0).ghTagExit] ∧
     ("ref=refs/tags/" ++ ("v" ++ "0.12.0")) ∈ tagCallArgs ("v" ++ "0.12.0")
        (pyStrip (World.mk (some "0.12.0") none ⟨0, "abc123\n"⟩ 0 0).gitRevParse.stdout) ∧
     ("  Tagging commit as " ++ ("v" ++ "0.12.0"))
        ∈ (triggerRelease (World.mk (some "0.12.0") none ⟨0, "abc123\n"⟩ 0 0)).logs) :=
  ⟨rfl, rfl, rfl, claimC7_tagNameExact _ "0.12.0" rfl rfl rfl⟩

/-- C8: if the commit-hash resolution exits with a non-zero status, the run
aborts with `subprocess.CalledProcessError` (this invocation is the one with
`check=True`), the process exit is non-zero, the resolution was performed
exactly once, and no tag-creation or release-creation call follows. -/
theorem claimC8_gitFailFatal (w : World) (V : String)
    (h1 : w.cargoVersion = some V)
    (h2 : w.registryVersion = none)
    (h3 : w.gitRevParse.exitCode ≠ 0) :
    (triggerRelease w).outcome = .calledProcessError ∧
    Outcome.processExit (triggerRelease w).outcome ≠ 0 ∧
    resolutionCount (triggerRelease w) = 1 ∧
    tagCreationCount (triggerRelease w) = 0 ∧
    releaseCreationCount (triggerRelease w) = 0 := by
  simp [triggerRelease, h1, h2, if_neg h3, resolutionCount, tagCreationCount,
    releaseCreationCount, Outcome.processExit]

/-- C8, witness: the failing-resolution statement evaluated with
`git rev-parse HEAD` exiting 128. -/
theorem claimC8_witness :
    (World.mk (some "0.12.0") none ⟨128, ""⟩ 0 0).cargoVersion = some "0.12.0" ∧
    (World.mk (some "0.12.0") none ⟨128, ""⟩ 0 0).registryVersion = none ∧
    (World.mk (some "0.12.0") none ⟨128, ""⟩ 0 0).gitRevParse.exitCode ≠ 0 ∧
    ((triggerRelease (World.mk (some "0.12.0") none ⟨128, ""⟩ 0 0)).outcome
       = .calledProcessError ∧
     Outcome.processExit (triggerRelease (World.mk (some "0.12.0") none
       ⟨128, ""⟩ 0 0)).outcome ≠ 0 ∧
     resolutionCount (triggerRelease (World.mk (some "0.12.0") none ⟨128, ""⟩ 0 0)) = 1 ∧
     tagCreationCount (triggerRelease (World.mk (some "0.12.0") none ⟨128, ""⟩ 0 0)) = 0 ∧
     releaseCreationCount (triggerRelease (World.mk (some "0.12.0") none ⟨128, ""⟩ 0 0)) = 0) :=
  ⟨rfl, rfl, by decide, claimC8_gitFailFatal _ "0.12.0" rfl rfl (by decide)⟩

/-- C9: the tag-creation call and the release-creation call target two
different hard-coded repositories: the tag reference is created under
`/repos/rust-osdev/x86_64/git/refs` while the release is created under
`/repos/rust-osdev/bootloader/releases`, so the created tag never lands in
the repository that receives the release. -/
theorem claimC9_reposDiffer (w : World) (V : String)
    (h1 : w.cargoVersion = some V)
    (h2 : w.registryVersion = none)
    (h3 : w.gitRevParse.exitCode = 0) :
    (triggerRelease w).events.filter (fun e => Event.isTagCreation e) =
      [Event.subprocess (tagCallArgs ("v" ++ V) (pyStrip w.gitRevParse.stdout)) w.ghTagExit] ∧
    (triggerRelease w).events.filter (fun e => Event.isReleaseCreation e) =
      [Event.subprocess (releaseCallArgs ("v" ++ V) (pyStrip w.gitRevParse.stdout))
        w.ghReleaseExit] ∧
    ghApiEndpoint (tagCallArgs ("v" ++ V) (pyStrip w.gitRevParse.stdout)) =
      some "/repos/rust-osdev/x86_64/git/refs" ∧
    ghApiEndpoint (releaseCallArgs ("v" ++ V) (pyStrip w.gitRevParse.stdout)) =
      some "/repos/rust-osdev/bootloader/releases" ∧
    repoOf "/repos/rust-osdev/x86_64/git/refs" = "rust-osdev/x86_64" ∧
    repoOf "/repos/rust-osdev/bootloader/releases" = "rust-osdev/bootloader" ∧
    ("rust-osdev/x86_64" : String) ≠ "rust-osdev/bootloader" := by
  simp only [triggerRelease, h1, h2, h3, if_pos]
  exact ⟨rfl, rfl, rfl, rfl, rfl, rfl, by decide⟩

/-- C9, witness: the two hard-coded endpoints evaluated at version
`0.12.0`. -/
theorem claimC9_witness :
    (World.mk (some "0.12.0") none ⟨0, "abc123\n"⟩ 0 0).cargoVersion = some "0.12.0" ∧
    (World.mk (some "0.12.0") none ⟨0, "abc123\n"⟩ 0 0).registryVersion = none ∧
    (World.mk (some "0.12.0") none ⟨0, "abc123\n"⟩ 0 0).gitRevParse.exitCode = 0 ∧
    (ghApiEndpoint (tagCallArgs ("v" ++ "0.12.0")
        (pyStrip (World.mk (some "0.12.0") none ⟨0, "abc123\n"⟩ 0 0).gitRevParse.stdout)) =
      some "/repos/rust-osdev/x86_64/git/refs" ∧
     repoOf "/repos/rust-osdev/x86_64/git/refs" = "rust-osdev/x86_64" ∧
     repoOf "/repos/rust-osdev/bootloader/releases" = "rust-osdev/bootloader") :=
  ⟨rfl, rfl, rfl,
   ⟨(claimC9_reposDiffer (World.mk (some "0.12.0") none ⟨0, "abc123\n"⟩ 0 0)
      "0.12.0" rfl rfl rfl).2.2.1,
    (claimC9_reposDiffer (World.mk (some "0.12.0") none ⟨0, "abc123\n"⟩ 0 0)
      "0.12.0" rfl rfl rfl).2.2.2.2.1,
    (claimC9_reposDiffer (World.mk (some "0.12.0") none ⟨0, "abc123\n"⟩ 0 0)
      "0.12.0" rfl rfl rfl).2.2.2.2.2.1⟩⟩

/-- C10: in the release-creation call, the transmitted arguments for
`tag_name`, `target_commitish`, `name` and `body` each wrap their value in
literal single quotes, so the transmitted `tag_name` and `target_commitish`
arguments differ both from the unquoted forms and from the
`refs/tags/`-prefixed tag reference used by the tag-creation call. -/
theorem claimC10_quotedFields (w : World) (V : String)
    (h1 : w.cargoVersion = some V)
    (h2 : w.registryVersion = none)
    (h3 : w.gitRevParse.exitCode = 0) :
    (triggerRelease w).events.filter (fun e => Event.isReleaseCreation e) =
      [Event.subprocess (releaseCallArgs ("v" ++ V) (pyStrip w.gitRevParse.stdout))
        w.ghReleaseExit] ∧
    ("tag_name='" ++ ("v" ++ V) ++ "'")
      ∈ releaseCallArgs ("v" ++ V) (pyStrip w.gitRevParse.stdout) ∧
    ("target_commitish='" ++ pyStrip w.gitRevParse.stdout ++ "'")
      ∈ releaseCallArgs ("v" ++ V) (pyStrip w.gitRevParse.stdout) ∧
    ("name='" ++ ("v" ++ V) ++ "'")
      ∈ releaseCallArgs ("v" ++ V) (pyStrip w.gitRevParse.stdout) ∧
    ("body='[Changelog](https://github.com/rust-osdev/bootloader/blob/main/Changelog.md)'"
      : String) ∈ releaseCallArgs ("v" ++ V) (pyStrip w.gitRevParse.stdout) ∧
    ("tag_name='" ++ ("v" ++ V) ++ "'") ≠ ("tag_name=" ++ ("v" ++ V)) ∧
    ("target_commitish='" ++ pyStrip w.gitRevParse.stdout ++ "'")
      ≠ ("target_commitish=" ++ pyStrip w.gitRevParse.stdout) ∧
    ("tag_name='" ++ ("v" ++ V) ++ "'") ≠ ("tag_name=" ++ ("refs/tags/" ++ ("v" ++ V))) := by
  simp only [triggerRelease, h1, h2, h3, if_pos]
  refine ⟨rfl, by simp [releaseCallArgs], by simp [releaseCallArgs], by simp [releaseCallArgs],
    by simp [releaseCallArgs], ?_, ?_, ?_⟩
  · refine ne_of_length_ne _ _ ?_
    simp only [String.length_append]
    show 10 + (1 + V.length) + 1 ≠ 9 + (1 + V.length)
    omega
  · refine ne_of_length_ne _ _ ?_
    simp only [String.length_append]
    show 18 + (pyStrip w.gitRevParse.stdout).length + 1
      ≠ 17 + (pyStrip w.gitRevParse.stdout).length
    omega
  · refine ne_of_length_ne _ _ ?_
    simp only [String.length_append]
    show 10 + (1 + V.length) + 1 ≠ 9 + (10 + (1 + V.length))
    omega

/-- C10, witness: the quoted release fields evaluated at version `0.12.0`
and hash `abc123`. -/
theorem claimC10_witness :
    (World.mk (some "0.12.0") none ⟨0, "abc123\n"⟩ 0 0).cargoVersion = some "0.12.0" ∧
    (World.mk (some "0.12.0") none ⟨0, "abc123\n"⟩ 0 0).registryVersion = none ∧
    (World.mk (some "0.12.0") none ⟨0, "abc123\n"⟩ 0 0).gitRevParse.exitCode = 0 ∧
    (("tag_name='" ++ ("v" ++ "0.12.0") ++ "'") ∈ releaseCallArgs ("v" ++ "0.12.0")
        (pyStrip (World.mk (some "0.12.0") none ⟨0, "abc123\n"⟩ 0 0).gitRevParse.stdout) ∧
     ("tag_name='" ++ ("v" ++ "0.12.0") ++ "'") ≠ ("tag_name=" ++ ("v" ++ "0.12.0")) ∧
     ("tag_name='" ++ ("v" ++ "0.12.0") ++ "'")
       ≠ ("tag_name=" ++ ("refs/tags/" ++ ("v" ++ "0.12.0")))) :=
  ⟨rfl, rfl, rfl,
   ⟨(claimC10_quotedFields (World.mk (some "0.12.0") none ⟨0, "abc123\n"⟩ 0 0)
      "0.12.0" rfl rfl rfl).2.1,
    (claimC10_quotedFields (World.mk (some "0.12.0") none ⟨0, "abc123\n"⟩ 0 0)
      "0.12.0" rfl rfl rfl).2.2.2.2.2.1,
    (claimC10_quotedFields (World.mk (some "0.12.0") none ⟨0, "abc123\n"⟩ 0 0)
      "0.12.0" rfl rfl rfl).2.2.2.2.2.2.2⟩⟩

end TriggerRelease
